import Mathlib

/-!
Verification of the DevSolver client request lifecycle.

The definitions below are a shallow embedding of the visible frontend
logic: the GitHub URL parser of CodeInputPanel.js, the submit handler of
pages/index.js, the rendering dispatch of ResultsPanel.js, and the shared
list of toast entries kept by NotificationContext.js together with the
per-entry auto-close timer of Notification.js.  React state updates are
modelled as pure functions from the page state to a new page state plus a
list of emitted effects (error, success and info toasts, and outgoing
network calls made through submitQuery).
-/

/-- Structured GitHub reference built by the URL parser of
CodeInputPanel.js: owner, repo, branch and an optional path. -/
structure GithubRepoRef where
  owner : String
  repo : String
  branch : String
  path : Option String
  deriving Repr, DecidableEq

/-- The two components of a parsed URL that handleGithubSubmit reads:
url.hostname and url.pathname. -/
structure URLParts where
  hostname : String
  pathname : String
  deriving Repr, DecidableEq

/-- Split of a character list at slashes, accumulating the current
segment in reverse. -/
def splitSlashAux : List Char → List Char → List String
  | [], acc => [String.mk acc.reverse]
  | c :: rest, acc =>
    if c = '/' then String.mk acc.reverse :: splitSlashAux rest []
    else splitSlashAux rest (c :: acc)

/-- The JS pathname.split at the slash character. -/
def splitSlash (s : String) : List String :=
  splitSlashAux s.toList []

/-- url.pathname.split on the slash with empty segments dropped,
mirroring pathname.split and the truthiness filter in the source. -/
def pathSegments (pathname : String) : List String :=
  (splitSlash pathname).filter (fun s => s ≠ "")

/-- GitHub URL parsing from handleGithubSubmit in CodeInputPanel.js.
The argument is the outcome of the URL constructor: none when the
constructor throws on a malformed string.  Returns none exactly where the
source alerts and returns without producing a reference. -/
def handleGithubSubmit : Option URLParts → Option GithubRepoRef
  | none => none
  | some u =>
    if u.hostname ≠ "github.com" then none
    else
      let parts := pathSegments u.pathname
      if parts.length < 2 then none
      else
        some { owner := parts.getD 0 ""
             , repo := parts.getD 1 ""
             , branch :=
                 if parts.length > 3 ∧ parts.getD 2 "" = "tree"
                 then parts.getD 3 "" else "main"
             , path :=
                 if parts.length > 4 ∧ parts.getD 2 "" = "tree"
                 then some (String.intercalate "/" (parts.drop 4)) else none }

/-- The codeData state object of pages/index.js. -/
structure CodeData where
  code : String
  language : String
  source : String
  githubRepo : Option GithubRepoRef
  deriving Repr, DecidableEq

/-- handleSourceChange from pages/index.js: spread codeData with the new
source and github reference. -/
def handleSourceChange (cd : CodeData) (source : String)
    (githubRepo : Option GithubRepoRef) : CodeData :=
  { cd with source := source, githubRepo := githubRepo }

/-- Effect of one Load click on the codeData state: on a successful parse
the source switches to github with the parsed reference; on rejection the
handler alerts and returns, leaving codeData untouched. -/
def handleGithubSubmitUpdate (cd : CodeData) (url : Option URLParts) : CodeData :=
  match handleGithubSubmit url with
  | some r => handleSourceChange cd "github" (some r)
  | none => cd

/-- One reference source shown in the Sources and References block of
ResultsPanel.js. -/
structure SourceInfo where
  title : String
  description : Option String
  url : Option String
  deriving Repr, DecidableEq

/-- One entry of a solution references list. -/
structure Reference where
  source : SourceInfo
  deriving Repr, DecidableEq

/-- One generated answer: markdown text, optional suggested code and its
reference list. -/
structure SolutionResult where
  answer : String
  code_changes : Option String
  references : List Reference
  deriving Repr, DecidableEq

/-- One detected issue of the code analysis pass. -/
structure Issue where
  description : String
  severity : String
  line_number : Option Nat
  deriving Repr, DecidableEq

/-- One improvement suggestion of the code analysis pass. -/
structure Suggestion where
  description : String
  benefit : Option String
  effort : String
  deriving Repr, DecidableEq

/-- Optional free-text details of the code analysis pass. -/
structure AnalysisDetails where
  code_structure : Option String
  best_practices : Option String
  additional_notes : Option String
  deriving Repr, DecidableEq

/-- Static code analysis block of a query response. -/
structure CodeAnalysis where
  issues : List Issue
  suggestions : List Suggestion
  complexity_score : Nat
  analysis_details : Option AnalysisDetails
  deriving Repr, DecidableEq

/-- The combined backend response consumed by the client.  The
execution_time number carries no arithmetic meaning in any property below
and is embedded as a Nat. -/
structure QueryResponse where
  official_solution : Option SolutionResult
  community_solution : Option SolutionResult
  code_analysis : Option CodeAnalysis
  technology : String
  execution_time : Nat
  deriving Repr, DecidableEq

/-- The queryData object built inside handleSubmit of pages/index.js. -/
structure QueryRequest where
  source : String
  technology : String
  code_snippet : String
  github_repo : Option GithubRepoRef
  query : String
  response_source_preference : String
  deriving Repr, DecidableEq

/-- The page state of pages/index.js that the submit and tab handlers
read and write. -/
structure ClientState where
  codeData : CodeData
  query : String
  results : Option QueryResponse
  loading : Bool
  codeAnalysis : Option CodeAnalysis
  activeTab : String
  deriving Repr, DecidableEq

/-- Observable effects emitted by the handlers: toast notifications shown
through the notification context and the outgoing network call made
through submitQuery. -/
inductive Effect where
  | showError (msg : String)
  | showSuccess (msg : String)
  | showInfo (msg : String)
  | networkCall (req : QueryRequest)
  deriving Repr, DecidableEq

/-- The queryData literal of handleSubmit in pages/index.js. -/
def buildQueryData (s : ClientState) : QueryRequest :=
  { source := s.codeData.source
  , technology := s.codeData.language
  , code_snippet := s.codeData.code
  , github_repo := s.codeData.githubRepo
  , query := s.query
  , response_source_preference := "both" }

/-- The synchronous front half of handleSubmit in pages/index.js: the two
local validation checks, then setLoading true and the submitQuery call.
Empty strings stand for falsy JS strings. -/
def handleSubmit (s : ClientState) : ClientState × List Effect :=
  if s.codeData.code = "" ∧ s.codeData.source = "snippet" then
    (s, [Effect.showError "Please provide code to analyze"])
  else if s.query = "" then
    (s, [Effect.showError "Please enter a question about your code"])
  else
    ({ s with loading := true }, [Effect.networkCall (buildQueryData s)])

/-- The resolution half of handleSubmit when submitQuery resolves: store
the response, copy its code_analysis, show the success toast, and clear
loading in the finally block. -/
def handleSubmitSuccess (s : ClientState) (data : QueryResponse) :
    ClientState × List Effect :=
  ({ s with results := some data
          , codeAnalysis := data.code_analysis
          , loading := false },
   [Effect.showSuccess
      "Analysis complete! Showing results from both documentation and community sources."])

/-- The rejection half of handleSubmit when submitQuery throws: show the
error toast and clear loading in the finally block; no state field other
than loading is written. -/
def handleSubmitFailure (s : ClientState) : ClientState × List Effect :=
  ({ s with loading := false },
   [Effect.showError
      "An error occurred while processing your request. Please try again."])

/-- handleTabChange from pages/index.js: setActiveTab only. -/
def handleTabChange (s : ClientState) (tab : String) : ClientState × List Effect :=
  ({ s with activeTab := tab }, [])

/-- handleCodeChange from pages/index.js. -/
def handleCodeChange (s : ClientState) (code : String) : ClientState :=
  { s with codeData := { s.codeData with code := code } }

/-- handleQueryChange from pages/index.js. -/
def handleQueryChange (s : ClientState) (q : String) : ClientState :=
  { s with query := q }

/-- handleLanguageChange from pages/index.js. -/
def handleLanguageChange (s : ClientState) (language : String) : ClientState :=
  { s with codeData := { s.codeData with language := language } }

/-- handleSourceChange lifted to the page state. -/
def handleSourceChangeClient (s : ClientState) (source : String)
    (githubRepo : Option GithubRepoRef) : ClientState :=
  { s with codeData := handleSourceChange s.codeData source githubRepo }

/-- Number of networkCall effects in an effect list. -/
def countNetworkCalls (effs : List Effect) : Nat :=
  (effs.filter (fun e => match e with
    | Effect.networkCall _ => true
    | _ => false)).length

/-- The whole client together with the number of requests in flight. -/
structure SystemState where
  client : ClientState
  pending : Nat
  deriving Repr, DecidableEq

/-- Initial page state: the useState initialisers of pages/index.js. -/
def initialClient : ClientState :=
  { codeData := { code := "", language := "python", source := "snippet", githubRepo := none }
  , query := ""
  , results := none
  , loading := false
  , codeAnalysis := none
  , activeTab := "official" }

/-- Initial system state: fresh page, nothing in flight. -/
def initialSystem : SystemState :=
  { client := initialClient, pending := 0 }

/-- Event-level transitions of the client.  The submitClick and queryEdit
guards encode the disabled attribute that QueryPanel.js puts on the
submit button and the question textarea while loading is set; a request
can complete only while one is in flight. -/
inductive Step : SystemState → SystemState → Prop where
  | submitClick (s : SystemState) (h : s.client.loading = false) :
      Step s { client := (handleSubmit s.client).1
             , pending := s.pending + countNetworkCalls (handleSubmit s.client).2 }
  | requestSucceeds (s : SystemState) (data : QueryResponse) (h : 0 < s.pending) :
      Step s { client := (handleSubmitSuccess s.client data).1
             , pending := s.pending - 1 }
  | requestFails (s : SystemState) (h : 0 < s.pending) :
      Step s { client := (handleSubmitFailure s.client).1
             , pending := s.pending - 1 }
  | tabSwitch (s : SystemState) (tab : String) :
      Step s { s with client := (handleTabChange s.client tab).1 }
  | codeEdit (s : SystemState) (code : String) :
      Step s { s with client := handleCodeChange s.client code }
  | queryEdit (s : SystemState) (q : String) (h : s.client.loading = false) :
      Step s { s with client := handleQueryChange s.client q }
  | languageSelect (s : SystemState) (language : String) :
      Step s { s with client := handleLanguageChange s.client language }
  | sourceSelect (s : SystemState) (source : String) (ref : Option GithubRepoRef) :
      Step s { s with client := handleSourceChangeClient s.client source ref }

/-- States reachable from the fresh page. -/
inductive Reachable : SystemState → Prop where
  | init : Reachable initialSystem
  | step (s t : SystemState) : Reachable s → Step s t → Reachable t

/-- The in-flight counter always equals the loading flag. -/
def pendingMatchesLoading (s : SystemState) : Prop :=
  s.pending = (if s.client.loading then 1 else 0)

/-- What the community or official tab body shows for one solution slot. -/
inductive SolutionView where
  | emptyState (message : String)
  | solutionContent (sol : SolutionResult)
  deriving Repr, DecidableEq

/-- renderSolution from ResultsPanel.js: a missing solution renders the
empty state with the No-solution message, a present one renders its
content. -/
def renderSolution (solution : Option SolutionResult) (ty : String) : SolutionView :=
  match solution with
  | none => SolutionView.emptyState ("No " ++ ty ++ " solution available")
  | some sol => SolutionView.solutionContent sol

/-- Body of the active tab. -/
inductive TabContent where
  | solutionTab (view : SolutionView)
  | analysisTab (analysis : Option CodeAnalysis)
  | blankTab
  deriving Repr, DecidableEq

/-- Top-level render outcome of ResultsPanel.js. -/
inductive PanelView where
  | loadingView
  | readyView
  | tabView (content : TabContent)
  deriving Repr, DecidableEq

/-- Render dispatch of ResultsPanel.js: the loading early return, then
the no-results early return, then the activeTab conditionals over the two
renderSolution calls and renderCodeAnalysis. -/
def resultsPanel (results : Option QueryResponse) (loading : Bool)
    (activeTab : String) (codeAnalysis : Option CodeAnalysis) : PanelView :=
  if loading then PanelView.loadingView
  else
    match results with
    | none => PanelView.readyView
    | some r =>
      PanelView.tabView
        (if activeTab = "official" then
           TabContent.solutionTab (renderSolution r.official_solution "official")
         else if activeTab = "community" then
           TabContent.solutionTab (renderSolution r.community_solution "community")
         else if activeTab = "analysis" then
           TabContent.analysisTab codeAnalysis
         else TabContent.blankTab)

/-- One entry of the shared toast list in NotificationContext.js. -/
structure StoredNotification where
  id : Nat
  type : String
  message : String
  duration : Nat
  deriving Repr, DecidableEq

/-- removeNotification from NotificationContext.js: keep every entry
whose id differs. -/
def removeNotification (id : Nat) (ns : List StoredNotification) :
    List StoredNotification :=
  ns.filter (fun n => n.id ≠ id)

/-- A mounted toast: its stored entry plus the instant its effect ran. -/
structure ActiveNotification where
  note : StoredNotification
  createdAt : Nat
  deriving Repr, DecidableEq

/-- Milliseconds that Notification.js waits after hiding before calling
onClose, so the exit animation can finish. -/
def closeDelay : Nat := 300

/-- Instant at which the auto-close of Notification.js removes the toast
from the list: the effect arms a timer only when duration is positive,
and onClose runs closeDelay after that timer fires. -/
def autoCloseTime (n : ActiveNotification) : Option Nat :=
  if n.note.duration > 0 then some (n.createdAt + n.note.duration + closeDelay)
  else none

/-- Whether a toast that is never dismissed manually is still in the list
at instant t. -/
def presentAt (n : ActiveNotification) (t : Nat) : Bool :=
  match autoCloseTime n with
  | none => true
  | some ct => decide (t < ct)

/-- The toast list at instant t, absent manual dismissals. -/
def activeListAt (ns : List ActiveNotification) (t : Nat) :
    List ActiveNotification :=
  ns.filter (fun n => presentAt n t)

/-- Sample page state: a snippet with code and a question filled in. -/
def readyState : ClientState :=
  { codeData := { code := "print(1)", language := "python", source := "snippet", githubRepo := none }
  , query := "why"
  , results := none
  , loading := false
  , codeAnalysis := none
  , activeTab := "official" }

/-- Sample page state after an empty file upload: source file, empty
code, non-empty question. -/
def fileEmptyCodeState : ClientState :=
  { codeData := { code := "", language := "python", source := "file", githubRepo := none }
  , query := "why does this fail"
  , results := none
  , loading := false
  , codeAnalysis := none
  , activeTab := "official" }

/-- Sample solution used to instantiate rendering facts. -/
def sampleSolution : SolutionResult :=
  { answer := "use a list", code_changes := none, references := [] }

/-- Sample response with an official answer and no community answer. -/
def sampleResponse : QueryResponse :=
  { official_solution := some sampleSolution
  , community_solution := none
  , code_analysis := none
  , technology := "python"
  , execution_time := 2 }

/-- C1: GitHub URL parsing in handleGithubSubmit.  The URL with path
acme/widgets parses to owner acme, repo widgets, branch main and no path;
the one with tree/dev/src/lib parses to branch dev and path src/lib; a
URL whose host is not github.com, or whose path has fewer than two
nonempty segments, is rejected: no reference is produced and codeData is
left unchanged.  In general a successful parse whose third segment is not
tree yields branch main and no path. -/
theorem github_url_parsing :
    (handleGithubSubmit (some { hostname := "github.com", pathname := "/acme/widgets" }) =
       some { owner := "acme", repo := "widgets", branch := "main", path := none }) ∧
    (handleGithubSubmit
        (some { hostname := "github.com", pathname := "/acme/widgets/tree/dev/src/lib" }) =
       some { owner := "acme", repo := "widgets", branch := "dev", path := some "src/lib" }) ∧
    (∀ u : URLParts, u.hostname ≠ "github.com" →
       handleGithubSubmit (some u) = none ∧
       ∀ cd, handleGithubSubmitUpdate cd (some u) = cd) ∧
    (∀ u : URLParts, (pathSegments u.pathname).length < 2 →
       handleGithubSubmit (some u) = none ∧
       ∀ cd, handleGithubSubmitUpdate cd (some u) = cd) ∧
    (∀ (u : URLParts) (r : GithubRepoRef), handleGithubSubmit (some u) = some r →
       (pathSegments u.pathname).getD 2 "" ≠ "tree" →
       r.branch = "main" ∧ r.path = none) := by
  refine ⟨by decide, by decide, ?_, ?_, ?_⟩
  · intro u h
    have hmain : handleGithubSubmit (some u) = none := by
      simp [handleGithubSubmit, h]
    exact ⟨hmain, fun cd => by simp [handleGithubSubmitUpdate, hmain]⟩
  · intro u h
    have hmain : handleGithubSubmit (some u) = none := by
      simp only [handleGithubSubmit]
      split
      · rfl
      · simp [h]
    exact ⟨hmain, fun cd => by simp [handleGithubSubmitUpdate, hmain]⟩
  · intro u r hr htree
    simp only [handleGithubSubmit] at hr
    split at hr
    · exact absurd hr (by simp)
    · split at hr
      · exact absurd hr (by simp)
      · injection hr with hr
        subst hr
        have h4 : ¬((pathSegments u.pathname).length > 3 ∧
            (pathSegments u.pathname).getD 2 "" = "tree") := by
          rintro ⟨-, h2⟩
          exact htree h2
        have h5 : ¬((pathSegments u.pathname).length > 4 ∧
            (pathSegments u.pathname).getD 2 "" = "tree") := by
          rintro ⟨-, h2⟩
          exact htree h2
        exact ⟨by rw [if_neg h4], by rw [if_neg h5]⟩

/-- Witness for C1 at a concrete rejected host. -/
theorem github_url_parsing_witness :
    ({ hostname := "gitlab.com", pathname := "/acme/widgets" } : URLParts).hostname ≠ "github.com" ∧
    handleGithubSubmit (some { hostname := "gitlab.com", pathname := "/acme/widgets" }) = none :=
  ⟨by decide,
   (github_url_parsing.2.2.1 { hostname := "gitlab.com", pathname := "/acme/widgets" }
      (by decide)).1⟩

/-- C2: handleSubmit performs a network call exactly when the query is
non-empty and it is not the case that the source is snippet with empty
code; when it rejects, the page state is unchanged and the only effect is
a single error notification, so no network call happens. -/
theorem submit_validation (s : ClientState) :
    ((∃ req, Effect.networkCall req ∈ (handleSubmit s).2) ↔
       (s.query ≠ "" ∧ ¬(s.codeData.source = "snippet" ∧ s.codeData.code = ""))) ∧
    (¬(s.query ≠ "" ∧ ¬(s.codeData.source = "snippet" ∧ s.codeData.code = "")) →
       (handleSubmit s).1 = s ∧ ∃ msg, (handleSubmit s).2 = [Effect.showError msg]) := by
  unfold handleSubmit
  by_cases h1 : s.codeData.code = "" ∧ s.codeData.source = "snippet"
  · rw [if_pos h1]
    constructor
    · constructor
      · rintro ⟨req, hreq⟩
        simp at hreq
      · rintro ⟨-, hno⟩
        exact absurd ⟨h1.2, h1.1⟩ hno
    · intro hneg
      exact ⟨rfl, "Please provide code to analyze", rfl⟩
  · rw [if_neg h1]
    by_cases h2 : s.query = ""
    · rw [if_pos h2]
      constructor
      · constructor
        · rintro ⟨req, hreq⟩
          simp at hreq
        · rintro ⟨hq, -⟩
          exact absurd h2 hq
      · intro hneg
        exact ⟨rfl, "Please enter a question about your code", rfl⟩
    · rw [if_neg h2]
      constructor
      · constructor
        · intro hmem
          exact ⟨h2, fun hc => h1 ⟨hc.2, hc.1⟩⟩
        · intro hrhs
          exact ⟨buildQueryData s, List.mem_singleton.mpr rfl⟩
      · intro hneg
        exact absurd ⟨h2, fun hc => h1 ⟨hc.2, hc.1⟩⟩ hneg

/-- Witness for C2 at the initial page state, whose query is empty. -/
theorem submit_validation_witness :
    (handleSubmit initialClient).1 = initialClient ∧
    ∃ msg, (handleSubmit initialClient).2 = [Effect.showError msg] :=
  (submit_validation initialClient).2 (by decide)

/-- C3: when the request fails, the displayed results and code analysis
are left unchanged and an error notification is shown; when it succeeds,
the stored response is replaced whole by the new one and the code
analysis is taken from it. -/
theorem error_and_success_handling (s : ClientState) (data : QueryResponse) :
    ((handleSubmitFailure s).1.results = s.results ∧
     (handleSubmitFailure s).1.codeAnalysis = s.codeAnalysis ∧
     (∃ msg, Effect.showError msg ∈ (handleSubmitFailure s).2)) ∧
    ((handleSubmitSuccess s data).1.results = some data ∧
     (handleSubmitSuccess s data).1.codeAnalysis = data.code_analysis) :=
  ⟨⟨rfl, rfl,
    ⟨"An error occurred while processing your request. Please try again.",
     List.mem_singleton.mpr rfl⟩⟩,
   rfl, rfl⟩

/-- handleSubmit either rejects, leaving the state unchanged with no
network call, or accepts, setting loading and making exactly one
call. -/
lemma handleSubmit_reject_or_accept (s : ClientState) :
    ((handleSubmit s).1 = s ∧ countNetworkCalls (handleSubmit s).2 = 0) ∨
    ((handleSubmit s).1 = { s with loading := true } ∧
       countNetworkCalls (handleSubmit s).2 = 1) := by
  unfold handleSubmit
  by_cases h1 : s.codeData.code = "" ∧ s.codeData.source = "snippet"
  · left
    rw [if_pos h1]
    exact ⟨rfl, rfl⟩
  · rw [if_neg h1]
    by_cases h2 : s.query = ""
    · left
      rw [if_pos h2]
      exact ⟨rfl, rfl⟩
    · right
      rw [if_neg h2]
      exact ⟨rfl, rfl⟩

/-- Every client transition preserves the agreement between the
in-flight counter and the loading flag. -/
lemma step_preserves_pendingMatchesLoading {s t : SystemState}
    (hinv : pendingMatchesLoading s) (hst : Step s t) :
    pendingMatchesLoading t := by
  unfold pendingMatchesLoading at hinv ⊢
  cases hst with
  | submitClick h =>
    rw [h] at hinv
    simp only [if_neg Bool.false_ne_true] at hinv
    rcases handleSubmit_reject_or_accept s.client with ⟨hc, hn⟩ | ⟨hc, hn⟩
    · simp only [hc, hn, hinv, h]
      simp
    · simp only [hc, hn, hinv]
      simp
  | requestSucceeds data h =>
    simp only [handleSubmitSuccess]
    have hload : s.client.loading = true := by
      by_contra hfalse
      rw [Bool.not_eq_true] at hfalse
      rw [hfalse] at hinv
      simp at hinv
      omega
    rw [hload] at hinv
    simp at hinv
    simp [hinv]
  | requestFails h =>
    simp only [handleSubmitFailure]
    have hload : s.client.loading = true := by
      by_contra hfalse
      rw [Bool.not_eq_true] at hfalse
      rw [hfalse] at hinv
      simp at hinv
      omega
    rw [hload] at hinv
    simp at hinv
    simp [hinv]
  | tabSwitch tab =>
    simpa [handleTabChange] using hinv
  | codeEdit code =>
    simpa [handleCodeChange] using hinv
  | queryEdit q h =>
    simpa [handleQueryChange] using hinv
  | languageSelect language =>
    simpa [handleLanguageChange] using hinv
  | sourceSelect source ref =>
    simpa [handleSourceChangeClient] using hinv

/-- C4: in every client state reachable from the fresh page, at most one
query request is in flight: the disabled submit button while loading
makes a second concurrent orchestrator invocation impossible. -/
theorem at_most_one_in_flight (s : SystemState) (h : Reachable s) :
    s.pending ≤ 1 := by
  have hinv : pendingMatchesLoading s := by
    induction h with
    | init => rfl
    | step s t hr hst ih => exact step_preserves_pendingMatchesLoading ih hst
  unfold pendingMatchesLoading at hinv
  rw [hinv]
  split <;> omega

/-- Witness for C4 at the initial system state. -/
theorem at_most_one_in_flight_witness : initialSystem.pending ≤ 1 :=
  at_most_one_in_flight initialSystem Reachable.init

/-- C5: a response with no community solution and a present official
solution renders the No-community-solution empty state on the community
tab while the official tab renders the official solution; that empty
state differs from the loading render. -/
theorem no_solution_rendering (r : QueryResponse) (sol : SolutionResult)
    (ca : Option CodeAnalysis)
    (h1 : r.community_solution = none) (h2 : r.official_solution = some sol) :
    resultsPanel (some r) false "community" ca =
      PanelView.tabView (TabContent.solutionTab
        (SolutionView.emptyState "No community solution available")) ∧
    resultsPanel (some r) false "official" ca =
      PanelView.tabView (TabContent.solutionTab (SolutionView.solutionContent sol)) ∧
    resultsPanel (some r) false "community" ca ≠
      resultsPanel (some r) true "community" ca := by
  refine ⟨?_, ?_, ?_⟩
  · simp [resultsPanel, renderSolution, h1]
  · simp [resultsPanel, renderSolution, h2]
  · simp [resultsPanel]

/-- Witness for C5 at a concrete response. -/
theorem no_solution_rendering_witness :
    resultsPanel (some sampleResponse) false "community" none =
      PanelView.tabView (TabContent.solutionTab
        (SolutionView.emptyState "No community solution available")) ∧
    resultsPanel (some sampleResponse) false "official" none =
      PanelView.tabView (TabContent.solutionTab
        (SolutionView.solutionContent sampleSolution)) ∧
    resultsPanel (some sampleResponse) false "community" none ≠
      resultsPanel (some sampleResponse) true "community" none :=
  no_solution_rendering sampleResponse sampleSolution none rfl rfl

/-- C6: a toast with duration 0 arms no timer and never auto-dismisses;
one with positive duration is removed at its auto-close instant, which is
at or after duration milliseconds from creation; whether a toast is still
in the list at an instant depends only on that toast, not on the
others. -/
theorem notification_auto_dismiss :
    (∀ n : ActiveNotification, n.note.duration = 0 →
       autoCloseTime n = none ∧ ∀ t, presentAt n t = true) ∧
    (∀ (n : ActiveNotification) (t : Nat), 0 < n.note.duration →
       (presentAt n t = false ↔ n.createdAt + n.note.duration + closeDelay ≤ t)) ∧
    (∀ (n : ActiveNotification) (t : Nat), presentAt n t = false →
       n.createdAt + n.note.duration ≤ t) ∧
    (∀ (ns : List ActiveNotification) (n : ActiveNotification) (t : Nat),
       n ∈ activeListAt ns t ↔ n ∈ ns ∧ presentAt n t = true) := by
  refine ⟨?_, ?_, ?_, ?_⟩
  · intro n h
    refine ⟨by simp [autoCloseTime, h], ?_⟩
    intro t
    simp [presentAt, autoCloseTime, h]
  · intro n t h
    simp [presentAt, autoCloseTime, h]
  · intro n t h
    unfold presentAt autoCloseTime at h
    by_cases hd : n.note.duration > 0
    · rw [if_pos hd] at h
      simp at h
      unfold closeDelay at h
      omega
    · rw [if_neg hd] at h
      simp at h
  · intro ns n t
    simp [activeListAt, List.mem_filter]

/-- Witness for C6 at a concrete zero-duration toast. -/
theorem notification_auto_dismiss_witness :
    autoCloseTime { note := { id := 1, type := "info", message := "hi", duration := 0 }
                  , createdAt := 4 } = none ∧
    presentAt { note := { id := 1, type := "info", message := "hi", duration := 0 }
              , createdAt := 4 } 999999 = true :=
  ⟨(notification_auto_dismiss.1
      { note := { id := 1, type := "info", message := "hi", duration := 0 }
      , createdAt := 4 } rfl).1,
   (notification_auto_dismiss.1
      { note := { id := 1, type := "info", message := "hi", duration := 0 }
      , createdAt := 4 } rfl).2 999999⟩

/-- C7: removeNotification removes every entry with the given id, keeps
all other entries in their original order, is a no-op when no entry has
the id, and applying it twice equals applying it once. -/
theorem remove_notification_idempotent (id : Nat) (ns : List StoredNotification) :
    (∀ n ∈ removeNotification id ns, n.id ≠ id) ∧
    (∀ n ∈ ns, n.id ≠ id → n ∈ removeNotification id ns) ∧
    (removeNotification id ns).Sublist ns ∧
    ((∀ n ∈ ns, n.id ≠ id) → removeNotification id ns = ns) ∧
    removeNotification id (removeNotification id ns) = removeNotification id ns := by
  refine ⟨?_, ?_, ?_, ?_, ?_⟩
  · intro n hn
    simp only [removeNotification, List.mem_filter, decide_eq_true_eq] at hn
    exact hn.2
  · intro n hn h
    simp only [removeNotification, List.mem_filter, decide_eq_true_eq]
    exact ⟨hn, h⟩
  · exact List.filter_sublist _
  · intro h
    apply List.filter_eq_self.mpr
    intro a ha
    simp [h a ha]
  · simp only [removeNotification, List.filter_filter]
    congr 1
    funext a
    simp

/-- Witness for C7: removing an absent id from a concrete list is a
no-op. -/
theorem remove_notification_idempotent_witness :
    removeNotification 5 [{ id := 1, type := "info", message := "hi", duration := 0 }] =
      [{ id := 1, type := "info", message := "hi", duration := 0 }] :=
  (remove_notification_idempotent 5
      [{ id := 1, type := "info", message := "hi", duration := 0 }]).2.2.2.1
    (by decide)

/-- C8 counterexample: a state with source file, empty code and a
non-empty query is not rejected: handleSubmit emits the network call, so
the claim that an empty code_snippet is rejected for source file fails on
the code. -/
theorem file_empty_snippet_submitted :
    fileEmptyCodeState.codeData.source = "file" ∧
    fileEmptyCodeState.codeData.code = "" ∧
    fileEmptyCodeState.query ≠ "" ∧
    (handleSubmit fileEmptyCodeState).2 =
      [Effect.networkCall (buildQueryData fileEmptyCodeState)] := by
  refine ⟨rfl, rfl, by decide, ?_⟩
  rfl

/-- C8 amended: code_snippet is required only when source is snippet:
such a request with empty code is rejected with the provide-code error
and no state change, while a source file request with empty code and a
non-empty query is submitted without client-side rejection. -/
theorem snippet_requires_code (s : ClientState) :
    (s.codeData.source = "snippet" → s.codeData.code = "" →
       (handleSubmit s).1 = s ∧
       (handleSubmit s).2 = [Effect.showError "Please provide code to analyze"]) ∧
    (s.codeData.source = "file" → s.query ≠ "" →
       (handleSubmit s).2 = [Effect.networkCall (buildQueryData s)]) := by
  constructor
  · intro hsrc hcode
    unfold handleSubmit
    rw [if_pos ⟨hcode, hsrc⟩]
    exact ⟨rfl, rfl⟩
  · intro hsrc hq
    have hno : ¬(s.codeData.code = "" ∧ s.codeData.source = "snippet") := by
      rintro ⟨-, h2⟩
      rw [hsrc] at h2
      exact absurd h2 (by decide)
    unfold handleSubmit
    rw [if_neg hno, if_neg hq]

/-- Witness for amended C8 at the initial page state, a snippet with
empty code. -/
theorem snippet_requires_code_witness :
    (handleSubmit initialClient).1 = initialClient ∧
    (handleSubmit initialClient).2 =
      [Effect.showError "Please provide code to analyze"] :=
  (snippet_requires_code initialClient).1 rfl rfl

/-- C9: a tab change only updates the active tab and leaves results,
code analysis, the loading flag, code data and query text unchanged,
emitting no effect and hence no network call. -/
theorem tab_switch_frame (s : ClientState) (tab : String) :
    (handleTabChange s tab).1.activeTab = tab ∧
    (handleTabChange s tab).1.results = s.results ∧
    (handleTabChange s tab).1.codeAnalysis = s.codeAnalysis ∧
    (handleTabChange s tab).1.loading = s.loading ∧
    (handleTabChange s tab).1.codeData = s.codeData ∧
    (handleTabChange s tab).1.query = s.query ∧
    (handleTabChange s tab).2 = [] :=
  ⟨rfl, rfl, rfl, rfl, rfl, rfl, rfl⟩

/-- C10: every request handleSubmit sends has response source
preference both and technology equal to the selected language; it is
never official or community alone. -/
theorem request_always_both (s : ClientState) (req : QueryRequest)
    (h : Effect.networkCall req ∈ (handleSubmit s).2) :
    req.response_source_preference = "both" ∧
    req.technology = s.codeData.language ∧
    req.response_source_preference ≠ "official" ∧
    req.response_source_preference ≠ "community" := by
  unfold handleSubmit at h
  split at h
  · simp at h
  · split at h
    · simp at h
    · simp only [List.mem_singleton, Effect.networkCall.injEq] at h
      subst h
      refine ⟨rfl, rfl, ?_, ?_⟩
      · exact fun hcon => absurd (show ("both" : String) = "official" from hcon) (by decide)
      · exact fun hcon => absurd (show ("both" : String) = "community" from hcon) (by decide)

/-- Witness for C10 at a concrete submitting state. -/
theorem request_always_both_witness :
    (buildQueryData readyState).response_source_preference = "both" ∧
    (buildQueryData readyState).technology = readyState.codeData.language ∧
    (buildQueryData readyState).response_source_preference ≠ "official" ∧
    (buildQueryData readyState).response_source_preference ≠ "community" :=
  request_always_both readyState (buildQueryData readyState) (by decide)

/-- Witness for C3 at a concrete state and response. -/
theorem error_and_success_handling_witness :
    ((handleSubmitFailure readyState).1.results = readyState.results ∧
     (handleSubmitFailure readyState).1.codeAnalysis = readyState.codeAnalysis ∧
     (∃ msg, Effect.showError msg ∈ (handleSubmitFailure readyState).2)) ∧
    ((handleSubmitSuccess readyState sampleResponse).1.results = some sampleResponse ∧
     (handleSubmitSuccess readyState sampleResponse).1.codeAnalysis =
       sampleResponse.code_analysis) :=
  error_and_success_handling readyState sampleResponse

/-- Witness for C9 at a concrete state and tab. -/
theorem tab_switch_frame_witness :
    (handleTabChange readyState "community").1.activeTab = "community" ∧
    (handleTabChange readyState "community").1.results = readyState.results ∧
    (handleTabChange readyState "community").1.codeAnalysis = readyState.codeAnalysis ∧
    (handleTabChange readyState "community").1.loading = readyState.loading ∧
    (handleTabChange readyState "community").1.codeData = readyState.codeData ∧
    (handleTabChange readyState "community").1.query = readyState.query ∧
    (handleTabChange readyState "community").2 = [] :=
  tab_switch_frame readyState "community"
